import Mathlib

/-!
Verification of the signal-generation, risk-sizing and backtesting core of the
ai_itm_scalping_bot repository, as a shallow embedding in Lean 4.

Numeric model: Python floats are modelled as exact rationals (ℚ).  Pandas NaN
values (undefined indicator cells) are modelled as `Option ℚ` (`none` = NaN);
comparisons against NaN are `false`, as in pandas.  Timestamps are modelled as
rational minutes since an epoch; the Python code only uses their differences
(in minutes) and their time-of-day component.

Source files embedded:
  - src/indicators/moving_averages.py  (ema, vwap)
  - src/indicators/momentum.py         (rsi)
  - src/strategy/signal_generator.py   (ITMScalpingSignals)
  - src/risk_management/risk_controls.py (RiskManager)
  - src/backtesting/backtest_engine.py (ITMBacktester)
-/

deriving instance DecidableEq for Except

/-- Signal type emitted per bar: `signal_type` column values
'NONE' / 'BUY_CE' / 'BUY_PE' in signal_generator.py. -/
inductive SigType where
  | NONE
  | BUY_CE
  | BUY_PE
deriving DecidableEq, Repr

/-- Option direction ('CE' / 'PE') used by the backtester. -/
inductive OptType where
  | CE
  | PE
deriving DecidableEq, Repr

/-- One OHLCV bar of the input series.  `timestamp` is in rational minutes
since an epoch (the Python code uses pandas Timestamps, reading only their
time-of-day and pairwise differences in minutes). -/
structure Bar where
  timestamp : ℚ
  open_ : ℚ
  high : ℚ
  low : ℚ
  close : ℚ
  volume : ℚ
deriving DecidableEq, Repr

/-- Strategy configuration of ITMScalpingSignals._default_config.
Market times are minutes-of-day (09:15 = 555, 15:30 = 930).
Fields of the Python config dict that are never read by the embedded code
(macd settings, use_vwap_filter, delta/spread criteria) are omitted. -/
structure SignalConfig where
  emaFast : ℕ
  emaSlow : ℕ
  rsiPeriod : ℕ
  rsiBuyMin : ℚ
  rsiBuyMax : ℚ
  rsiSellMin : ℚ
  rsiSellMax : ℚ
  volumeMultiplier : ℚ
  volumePeriod : ℕ
  avoidFirstMinutes : ℚ
  avoidLastMinutes : ℚ
  marketStart : ℚ
  marketEnd : ℚ
  minConfidence : ℚ
deriving DecidableEq, Repr

/-- Defaults from ITMScalpingSignals._default_config (signal_generator.py). -/
def defaultSignalConfig : SignalConfig :=
  { emaFast := 9
    emaSlow := 21
    rsiPeriod := 14
    rsiBuyMin := 45
    rsiBuyMax := 65
    rsiSellMin := 35
    rsiSellMax := 55
    volumeMultiplier := 3/2
    volumePeriod := 20
    avoidFirstMinutes := 15
    avoidLastMinutes := 15
    marketStart := 555
    marketEnd := 930
    minConfidence := 3/5 }

/-- Time-of-day in minutes of a timestamp given in minutes since the epoch
(models extracting `.time()` from a pandas Timestamp). -/
def timeOfDay (t : ℚ) : ℚ := t - 1440 * (⌊t / 1440⌋ : ℤ)

/-- ITMScalpingSignals.check_time_filter: the bar's time-of-day must lie in
[market_start + avoid_first_minutes, market_end - avoid_last_minutes]. -/
def checkTimeFilter (cfg : SignalConfig) (t : ℚ) : Bool :=
  let avoidUntil := timeOfDay (cfg.marketStart + cfg.avoidFirstMinutes)
  let avoidAfter := timeOfDay (cfg.marketEnd - cfg.avoidLastMinutes)
  decide (avoidUntil ≤ timeOfDay t) && decide (timeOfDay t ≤ avoidAfter)

/-- Tail of the pandas `ewm(alpha, adjust=False).mean()` recursion:
each new value is (1-α)·previous + α·current. -/
def emaFrom (α : ℚ) (prev : ℚ) : List ℚ → List ℚ
  | [] => []
  | x :: xs =>
      let v := (1 - α) * prev + α * x
      v :: emaFrom α v xs

/-- MovingAverages.ema via pandas `ewm(alpha=2/(period+1), adjust=False)`:
the first output equals the first input, then exponential smoothing. -/
def emaList (α : ℚ) : List ℚ → List ℚ
  | [] => []
  | x :: xs => x :: emaFrom α x xs

/-- Per-element deltas of `Series.diff()`, with the leading NaN replaced by 0
as done by `delta.where(delta > 0, 0.0)` / `-delta.where(delta < 0, 0.0)`:
`gainsList` keeps positive deltas, `lossesList` keeps negated negative deltas. -/
def gainsList : List ℚ → List ℚ
  | [] => []
  | x :: xs => 0 :: (List.zipWith (fun prev cur => if cur - prev > 0 then cur - prev else 0) (x :: xs) xs)

def lossesList : List ℚ → List ℚ
  | [] => []
  | x :: xs => 0 :: (List.zipWith (fun prev cur => if cur - prev < 0 then -(cur - prev) else 0) (x :: xs) xs)

/-- MomentumIndicators.rsi: RSI from smoothed average gain and average loss.
Both averages are non-negative by construction; pandas yields NaN when both
are zero (0/0) and the saturation value 100 when only the loss average is
zero (x/0 = +inf, 100 - 100/(1+inf) = 100). -/
def rsiList (period : ℕ) (closes : List ℚ) : List (Option ℚ) :=
  let α : ℚ := 2 / ((period : ℚ) + 1)
  let avgG := emaList α (gainsList closes)
  let avgL := emaList α (lossesList closes)
  List.zipWith
    (fun g l =>
      if l = 0 then (if g = 0 then none else some 100)
      else some (100 - 100 / (1 + g / l)))
    avgG avgL

/-- Rolling-window arithmetic mean (`Series.rolling(window=n).mean()`):
NaN (`none`) until a full window of n values is available. -/
def smaList (n : ℕ) (xs : List ℚ) : List (Option ℚ) :=
  (List.range xs.length).map (fun i =>
    if i + 1 < n then none
    else some (((xs.drop (i + 1 - n)).take n).sum / (n : ℚ)))

/-- Running sums (`Series.cumsum()`). -/
def cumsumList : List ℚ → List ℚ
  | [] => []
  | x :: xs => (List.range (xs.length + 1)).map (fun i => ((x :: xs).take (i + 1)).sum)

def closesOf (data : List Bar) : List ℚ := data.map (·.close)

def volumesOf (data : List Bar) : List ℚ := data.map (·.volume)

/-- Typical price (high+low+close)/3 per bar, as in MovingAverages.vwap. -/
def typicalPrices (data : List Bar) : List ℚ :=
  data.map (fun b => (b.high + b.low + b.close) / 3)

/-- Index accessors over the indicator columns (out-of-range reads return a
default; all uses are at in-range indices). -/
def timestampAt (data : List Bar) (i : ℕ) : ℚ := (data.map (·.timestamp)).getD i 0

def closeAt (data : List Bar) (i : ℕ) : ℚ := (closesOf data).getD i 0

def openAt (data : List Bar) (i : ℕ) : ℚ := (data.map (·.open_)).getD i 0

def volumeAt (data : List Bar) (i : ℕ) : ℚ := (volumesOf data).getD i 0

def emaFastAt (cfg : SignalConfig) (data : List Bar) (i : ℕ) : ℚ :=
  (emaList (2 / ((cfg.emaFast : ℚ) + 1)) (closesOf data)).getD i 0

def emaSlowAt (cfg : SignalConfig) (data : List Bar) (i : ℕ) : ℚ :=
  (emaList (2 / ((cfg.emaSlow : ℚ) + 1)) (closesOf data)).getD i 0

def rsiAt (cfg : SignalConfig) (data : List Bar) (i : ℕ) : Option ℚ :=
  (rsiList cfg.rsiPeriod (closesOf data)).getD i none

def volumeAvgAt (cfg : SignalConfig) (data : List Bar) (i : ℕ) : Option ℚ :=
  (smaList cfg.volumePeriod (volumesOf data)).getD i none

def cumTpVolAt (data : List Bar) (i : ℕ) : ℚ :=
  (cumsumList (List.zipWith (· * ·) (typicalPrices data) (volumesOf data))).getD i 0

def cumVolAt (data : List Bar) (i : ℕ) : ℚ :=
  (cumsumList (volumesOf data)).getD i 0

/-- Float semantics of `close > vwap` where vwap = num/den with cumulative
sums: den = 0 gives vwap = NaN (num = 0, comparison false) or ±inf. -/
def gtVwap (c num den : ℚ) : Bool :=
  if den = 0 then (if num = 0 then false else decide (num < 0))
  else decide (c > num / den)

/-- Float semantics of `close < vwap` with the same NaN/±inf conventions. -/
def ltVwap (c num den : ℚ) : Bool :=
  if den = 0 then (if num = 0 then false else decide (num > 0))
  else decide (c < num / den)

/-- Float semantics of `close.pct_change() > 0` at index i ≥ 1:
(c_i - c_{i-1}) / c_{i-1} > 0, with division by zero giving ±inf/NaN. -/
def pctChangePos (data : List Bar) (i : ℕ) : Bool :=
  let prev := closeAt data (i - 1)
  let cur := closeAt data i
  if prev = 0 then decide (0 < cur) else decide ((cur - prev) / prev > 0)

/-- Float semantics of `close.pct_change() < 0` at index i ≥ 1. -/
def pctChangeNeg (data : List Bar) (i : ℕ) : Bool :=
  let prev := closeAt data (i - 1)
  let cur := closeAt data i
  if prev = 0 then decide (cur < 0) else decide ((cur - prev) / prev < 0)

/-- Volume filter `pd.notna(volume_ratio) and volume_ratio >= multiplier`
where volume_ratio = volume / rolling-average: the average NaN gives false,
a zero average gives ratio ±inf/NaN (satisfied only for +inf). -/
def volumeCond (cfg : SignalConfig) (data : List Bar) (i : ℕ) : Bool :=
  match volumeAvgAt cfg data i with
  | none => false
  | some a =>
      if a = 0 then decide (0 < volumeAt data i)
      else decide (volumeAt data i / a ≥ cfg.volumeMultiplier)

/-- The six bullish sub-conditions of generate_bullish_signals, in source
order.  EMA values are never NaN for NaN-free input, so the `pd.notna`
guards on them are identically true and are dropped. -/
def bullCond1 (data : List Bar) (i : ℕ) : Bool :=
  gtVwap (closeAt data i) (cumTpVolAt data i) (cumVolAt data i)

def bullCond2 (cfg : SignalConfig) (data : List Bar) (i : ℕ) : Bool :=
  decide (emaFastAt cfg data i > emaSlowAt cfg data i)

def bullCond3 (cfg : SignalConfig) (data : List Bar) (i : ℕ) : Bool :=
  decide (emaFastAt cfg data i > emaSlowAt cfg data i) &&
  decide (emaFastAt cfg data (i - 1) ≤ emaSlowAt cfg data (i - 1))

def bullCond4 (cfg : SignalConfig) (data : List Bar) (i : ℕ) : Bool :=
  match rsiAt cfg data i with
  | none => false
  | some r => decide (cfg.rsiBuyMin ≤ r) && decide (r ≤ cfg.rsiBuyMax)

def bullCond5 (cfg : SignalConfig) (data : List Bar) (i : ℕ) : Bool :=
  volumeCond cfg data i

def bullCond6 (data : List Bar) (i : ℕ) : Bool :=
  decide (closeAt data i > openAt data i) && pctChangePos data i

/-- The six bearish sub-conditions of generate_bearish_signals. -/
def bearCond1 (data : List Bar) (i : ℕ) : Bool :=
  ltVwap (closeAt data i) (cumTpVolAt data i) (cumVolAt data i)

def bearCond2 (cfg : SignalConfig) (data : List Bar) (i : ℕ) : Bool :=
  decide (emaFastAt cfg data i < emaSlowAt cfg data i)

def bearCond3 (cfg : SignalConfig) (data : List Bar) (i : ℕ) : Bool :=
  decide (emaFastAt cfg data i < emaSlowAt cfg data i) &&
  decide (emaFastAt cfg data (i - 1) ≥ emaSlowAt cfg data (i - 1))

def bearCond4 (cfg : SignalConfig) (data : List Bar) (i : ℕ) : Bool :=
  match rsiAt cfg data i with
  | none => false
  | some r => decide (cfg.rsiSellMin ≤ r) && decide (r ≤ cfg.rsiSellMax)

def bearCond5 (cfg : SignalConfig) (data : List Bar) (i : ℕ) : Bool :=
  volumeCond cfg data i

def bearCond6 (data : List Bar) (i : ℕ) : Bool :=
  decide (closeAt data i < openAt data i) && pctChangeNeg data i

/-- conditions_met of the bullish loop body. -/
def bullishCount (cfg : SignalConfig) (data : List Bar) (i : ℕ) : ℕ :=
  (bullCond1 data i).toNat + (bullCond2 cfg data i).toNat + (bullCond3 cfg data i).toNat +
  (bullCond4 cfg data i).toNat + (bullCond5 cfg data i).toNat + (bullCond6 data i).toNat

/-- conditions_met of the bearish loop body. -/
def bearishCount (cfg : SignalConfig) (data : List Bar) (i : ℕ) : ℕ :=
  (bearCond1 data i).toNat + (bearCond2 cfg data i).toNat + (bearCond3 cfg data i).toNat +
  (bearCond4 cfg data i).toNat + (bearCond5 cfg data i).toNat + (bearCond6 data i).toNat

/-- Raw bullish strength conditions_met/6 at bar i; 0 at index 0 (the loop
starts at 1) and at bars rejected by the time filter (`continue`). -/
def rawBullStrength (cfg : SignalConfig) (data : List Bar) (i : ℕ) : ℚ :=
  if i = 0 then 0
  else if checkTimeFilter cfg (timestampAt data i) then (bullishCount cfg data i : ℚ) / 6
  else 0

def rawBearStrength (cfg : SignalConfig) (data : List Bar) (i : ℕ) : ℚ :=
  if i = 0 then 0
  else if checkTimeFilter cfg (timestampAt data i) then (bearishCount cfg data i : ℚ) / 6
  else 0

/-- Value of the bullish_signals series at bar i: the strength when it meets
min_confidence, otherwise the series default 0. -/
def bullSignalAt (cfg : SignalConfig) (data : List Bar) (i : ℕ) : ℚ :=
  if rawBullStrength cfg data i ≥ cfg.minConfidence then rawBullStrength cfg data i else 0

def bearSignalAt (cfg : SignalConfig) (data : List Bar) (i : ℕ) : ℚ :=
  if rawBearStrength cfg data i ≥ cfg.minConfidence then rawBearStrength cfg data i else 0

/-- Combination step of generate_signals: start from 'NONE', write BUY_CE on
the bullish mask, then write BUY_PE on the bearish mask (last write wins). -/
def signalTypeAt (cfg : SignalConfig) (data : List Bar) (i : ℕ) : SigType :=
  if bearSignalAt cfg data i > 0 then SigType.BUY_PE
  else if bullSignalAt cfg data i > 0 then SigType.BUY_CE
  else SigType.NONE

def signalStrengthAt (cfg : SignalConfig) (data : List Bar) (i : ℕ) : ℚ :=
  if bearSignalAt cfg data i > 0 then bearSignalAt cfg data i
  else if bullSignalAt cfg data i > 0 then bullSignalAt cfg data i
  else 0

/-- One row of the DataFrame returned by generate_signals, restricted to the
columns the backtester reads. -/
structure SignalRow where
  timestamp : ℚ
  close : ℚ
  signalType : SigType
  signalStrength : ℚ
deriving DecidableEq, Repr

/-- The length check of calculate_indicators:
`max(ema_slow, rsi_period, volume_period)` data points are required. -/
def requiredLookback (cfg : SignalConfig) : ℕ :=
  max cfg.emaSlow (max cfg.rsiPeriod cfg.volumePeriod)

def buildRows (cfg : SignalConfig) (data : List Bar) : List SignalRow :=
  (List.range data.length).map (fun i =>
    { timestamp := timestampAt data i
      close := closeAt data i
      signalType := signalTypeAt cfg data i
      signalStrength := signalStrengthAt cfg data i })

/-- ITMScalpingSignals.generate_signals: raises (ValueError, the spec's
InsufficientDataError) when the series is shorter than the longest indicator
lookback — this check is the first statement of calculate_indicators, before
any indicator computation — and otherwise returns the decorated series. -/
def generateSignals (cfg : SignalConfig) (data : List Bar) : Except String (List SignalRow) :=
  if data.length < requiredLookback cfg then Except.error "Insufficient data"
  else Except.ok (buildRows cfg data)

/-- ITMScalpingSignals.__init__: stores the supplied config, or the defaults
when none is supplied; the source performs no validation and cannot raise. -/
def ITMScalpingSignals.init (config : Option SignalConfig) : SignalConfig :=
  config.getD defaultSignalConfig

/-- Risk management configuration from RiskManager._default_config
(risk_controls.py).  Fields never read by the embedded methods
(max_exposure, max_correlation, circuit_breaker, cooling/news/vix/volume/
spread/emergency/profit-protection settings) are omitted. -/
structure RiskConfig where
  maxRiskPerTrade : ℚ
  maxPositionSize : ℚ
  minPositionSize : ℚ
  maxDailyLoss : ℚ
  maxConcurrentPositions : ℕ
  maxTradesPerDay : ℕ
  stepDownAfterLoss : Bool
deriving DecidableEq, Repr

def defaultRiskConfig : RiskConfig :=
  { maxRiskPerTrade := 1/50
    maxPositionSize := 50000
    minPositionSize := 5000
    maxDailyLoss := 1/20
    maxConcurrentPositions := 3
    maxTradesPerDay := 50
    stepDownAfterLoss := true }

/-- RiskManager.daily_stats. -/
structure DailyStats where
  tradesToday : ℕ
  pnlToday : ℚ
  maxDrawdownToday : ℚ
  startCapital : ℚ
deriving DecidableEq, Repr

/-- The RiskManager object state right after __init__: stored config,
zeroed daily stats, no tracked positions. -/
structure RiskManager where
  config : RiskConfig
  stats : DailyStats
  numPositions : ℕ
deriving DecidableEq, Repr

/-- RiskManager.__init__: stores the supplied config (or the defaults) and
fresh counters; the source performs no validation and cannot raise. -/
def RiskManager.init (config : Option RiskConfig) : RiskManager :=
  { config := config.getD defaultRiskConfig
    stats := { tradesToday := 0, pnlToday := 0, maxDrawdownToday := 0, startCapital := 0 }
    numPositions := 0 }

/-- The pre-clamp position size of RiskManager.calculate_position_size:
capital × base risk fraction × strength multiplier × performance multiplier,
with the product of multipliers capped at 1.5× the base fraction.
`signalStrength` models `trade_signal.get('signal_strength', 0.5)`. -/
def fractionalSize (cfg : RiskConfig) (stats : DailyStats)
    (signalStrength : Option ℚ) (currentCapital : ℚ) : ℚ :=
  let baseSizePct := cfg.maxRiskPerTrade
  let strengthMultiplier := min ((signalStrength.getD (1/2)) * 2) 1
  let performanceMultiplier : ℚ :=
    if stats.pnlToday < 0 ∧ cfg.stepDownAfterLoss then 1/2
    else if stats.pnlToday > 0 then 6/5
    else 1
  let finalSizePct := min (baseSizePct * strengthMultiplier * performanceMultiplier)
    (cfg.maxRiskPerTrade * (3/2))
  currentCapital * finalSizePct

/-- RiskManager.calculate_position_size: the fractional size clamped from
below to min_position_size (`max(position_size, min_position_size)`). -/
def calculatePositionSize (cfg : RiskConfig) (stats : DailyStats)
    (signalStrength : Option ℚ) (currentCapital : ℚ) : ℚ :=
  max (fractionalSize cfg stats signalStrength currentCapital) cfg.minPositionSize

/-- Daily loss fraction used by check 2 of check_pre_trade_risk. -/
def dailyLossPct (stats : DailyStats) : ℚ :=
  if stats.startCapital > 0 then |stats.pnlToday| / stats.startCapital else 0

/-- RiskManager.check_pre_trade_risk: the four rejection checks in source
order, then the size computation and validation.  Reason strings follow the
source messages (formatted numeric suffixes dropped). -/
def checkPreTradeRisk (cfg : RiskConfig) (stats : DailyStats) (numPositions : ℕ)
    (signalStrength : Option ℚ) (currentCapital : ℚ) : Bool × String × ℚ :=
  if currentCapital ≤ cfg.minPositionSize then
    (false, "Insufficient capital for minimum position", 0)
  else if stats.pnlToday < 0 ∧ dailyLossPct stats ≥ cfg.maxDailyLoss then
    (false, "Daily loss limit reached", 0)
  else if numPositions ≥ cfg.maxConcurrentPositions then
    (false, "Maximum positions limit reached", 0)
  else if stats.tradesToday ≥ cfg.maxTradesPerDay then
    (false, "Daily trades limit reached", 0)
  else
    let suggestedSize := calculatePositionSize cfg stats signalStrength currentCapital
    if suggestedSize > cfg.maxPositionSize then
      (true, "Risk check passed", cfg.maxPositionSize)
    else if suggestedSize < cfg.minPositionSize then
      (false, "Calculated position size too small", 0)
    else
      (true, "Risk check passed", suggestedSize)

/-- Backtest configuration from ITMBacktester._default_config
(backtest_engine.py); risk_per_trade is never read by run_backtest. -/
structure BTConfig where
  positionSizePerTrade : ℚ
  maxPositions : ℕ
  commissionPerTrade : ℚ
  slippagePoints : ℚ
  optionMultiplier : ℚ
  itmPremiumFactor : ℚ
  forceExitMinutes : ℚ
  stopLossPoints : ℚ
  profitTarget1 : ℚ
  profitTarget2 : ℚ
deriving DecidableEq, Repr

def defaultBTConfig : BTConfig :=
  { positionSizePerTrade := 10000
    maxPositions := 3
    commissionPerTrade := 20
    slippagePoints := 1/2
    optionMultiplier := 75
    itmPremiumFactor := 1/50
    forceExitMinutes := 5
    stopLossPoints := 10
    profitTarget1 := 8
    profitTarget2 := 15 }

/-- Python's round-half-to-even on a rational (the `round(x, 0)` used by
get_itm_strike). -/
def pyRound (x : ℚ) : ℚ :=
  let f : ℤ := ⌊x⌋
  let r := x - f
  if r < 1/2 then f
  else if r > 1/2 then f + 1
  else if 2 ∣ f then f else f + 1

/-- ITMBacktester.get_itm_strike: 50 points in the money. -/
def getItmStrike (spot : ℚ) (optType : OptType) : ℚ :=
  match optType with
  | OptType.CE => pyRound (spot - 50)
  | OptType.PE => pyRound (spot + 50)

/-- ITMBacktester.calculate_option_premium: intrinsic value plus a flat
time-value term spot × itm_premium_factor. -/
def optionPremium (factor : ℚ) (spot strike : ℚ) (optType : OptType) : ℚ :=
  (match optType with
   | OptType.CE => max 0 (spot - strike)
   | OptType.PE => max 0 (strike - spot)) + spot * factor

/-- Python int() truncation toward zero of a rational. -/
def pyInt (x : ℚ) : ℤ := if 0 ≤ x then ⌊x⌋ else ⌈x⌉

/-- An OPEN simulated option position (the trade dict of execute_trade up to
the fields populated at close). -/
structure OpenTrade where
  entryTime : ℚ
  signalType : SigType
  optType : OptType
  strike : ℚ
  spotPrice : ℚ
  entryPremium : ℚ
  quantity : ℤ
  signalStrength : ℚ
  commission : ℚ
deriving DecidableEq, Repr

/-- A CLOSED trade: the open fields plus the exit fields populated when the
position is closed. -/
structure ClosedTrade where
  base : OpenTrade
  exitTime : ℚ
  exitPremium : ℚ
  pnl : ℚ
  pnlPoints : ℚ
  holdTimeMinutes : ℚ
  exitReason : String
deriving DecidableEq, Repr

/-- One sample of the equity curve recorded every processed bar. -/
structure EquityPoint where
  timestamp : ℚ
  equity : ℚ
  realizedPnl : ℚ
  unrealizedPnl : ℚ
  openPositions : ℕ
deriving DecidableEq, Repr

/-- ITMBacktester.execute_trade: derive option type and ITM strike from the
signal, price the entry premium with slippage, size the position.  Returns
`ok none` for a non-buy signal (the Python `return None`), and an error where
Python would raise ZeroDivisionError in the quantity computation. -/
def executeTrade (cfg : BTConfig) (row : SignalRow) : Except String (Option OpenTrade) :=
  let spot := row.close
  match (match row.signalType with
         | SigType.BUY_CE => some OptType.CE
         | SigType.BUY_PE => some OptType.PE
         | SigType.NONE => none) with
  | none => Except.ok none
  | some ot =>
      let strike := getItmStrike spot ot
      let entryPremium := optionPremium cfg.itmPremiumFactor spot strike ot + cfg.slippagePoints
      if entryPremium * cfg.optionMultiplier = 0 then Except.error "division by zero"
      else
        let quantity := max (pyInt (cfg.positionSizePerTrade / (entryPremium * cfg.optionMultiplier))) 1
        Except.ok (some
          { entryTime := row.timestamp
            signalType := row.signalType
            optType := ot
            strike := strike
            spotPrice := spot
            entryPremium := entryPremium
            quantity := quantity
            signalStrength := row.signalStrength
            commission := cfg.commissionPerTrade * 2 })

/-- The opposite_signal computed in check_exit_conditions. -/
def oppositeSignal (t : SigType) : SigType :=
  if t = SigType.BUY_CE then SigType.BUY_PE else SigType.BUY_CE

/-- ITMBacktester.check_exit_conditions: the exit rules in source order —
time limit, stop loss, profit target 2, profit target 1, reverse signal
with strength > 0.7.  Returns (should_exit, exit_reason, current_premium). -/
def checkExitConditions (cfg : BTConfig) (trade : OpenTrade) (row : SignalRow)
    (minutesHeld : ℚ) : Bool × Option String × ℚ :=
  let currentPremium := optionPremium cfg.itmPremiumFactor row.close trade.strike trade.optType
  let pnlPoints := currentPremium - trade.entryPremium
  if minutesHeld ≥ cfg.forceExitMinutes then (true, some "time_limit", currentPremium)
  else if pnlPoints ≤ -cfg.stopLossPoints then (true, some "stop_loss", currentPremium)
  else if pnlPoints ≥ cfg.profitTarget2 then (true, some "profit_target_2", currentPremium)
  else if pnlPoints ≥ cfg.profitTarget1 then (true, some "profit_target_1", currentPremium)
  else if row.signalType = oppositeSignal trade.signalType ∧ row.signalStrength > 7/10 then
    (true, some "reverse_signal", currentPremium)
  else (false, none, currentPremium)

/-- Closing a trade at a given premium quote: exit slippage is subtracted,
P&L in points and rupees is computed as in the close branch of run_backtest
(and identically in the end-of-data branch). -/
def closeTrade (cfg : BTConfig) (trade : OpenTrade) (time premium : ℚ)
    (reason : String) : ClosedTrade :=
  let exitPremium := premium - cfg.slippagePoints
  let pnlPoints := exitPremium - trade.entryPremium
  { base := trade
    exitTime := time
    exitPremium := exitPremium
    pnl := pnlPoints * trade.quantity * cfg.optionMultiplier - trade.commission
    pnlPoints := pnlPoints
    holdTimeMinutes := time - trade.entryTime
    exitReason := reason }

/-- The exit pass of one bar: each open trade is checked once, in order, and
either kept (in order) or closed (appended to the closed list in order),
mirroring the iteration over `open_trades[:]` with in-place removal. -/
def processExits (cfg : BTConfig) (row : SignalRow) :
    List OpenTrade → List OpenTrade × List ClosedTrade
  | [] => ([], [])
  | t :: rest =>
      let holdTime := row.timestamp - t.entryTime
      let res := checkExitConditions cfg t row holdTime
      let tail := processExits cfg row rest
      if res.1 then
        (tail.1, closeTrade cfg t row.timestamp res.2.2 ((res.2.1).getD "") :: tail.2)
      else (t :: tail.1, tail.2)

/-- The mutable state of ITMBacktester during run_backtest. -/
structure BTState where
  capital : ℚ
  openTrades : List OpenTrade
  trades : List ClosedTrade
  equity : List EquityPoint
deriving DecidableEq, Repr

/-- Unrealized P&L summed over the open positions, as recorded every bar. -/
def unrealizedPnl (cfg : BTConfig) (spot : ℚ) (opens : List OpenTrade) : ℚ :=
  (opens.map (fun t =>
    (optionPremium cfg.itmPremiumFactor spot t.strike t.optType - t.entryPremium) *
      t.quantity * cfg.optionMultiplier)).sum

/-- The entry check of the per-bar loop: a qualifying signal opens a new
position when the open-position count is under the cap and the capital
(after this bar's closes) exceeds the per-trade size. -/
def btStepEntry (cfg : BTConfig) (row : SignalRow) (remaining : List OpenTrade)
    (capitalAfter : ℚ) : Except String (List OpenTrade) :=
  if row.signalType ≠ SigType.NONE ∧ remaining.length < cfg.maxPositions ∧
      capitalAfter > cfg.positionSizePerTrade then
    match executeTrade cfg row with
    | Except.error e => Except.error e
    | Except.ok none => Except.ok remaining
    | Except.ok (some t) => Except.ok (remaining ++ [t])
  else Except.ok remaining

/-- The body of the per-bar loop of run_backtest: close qualifying open
trades (updating capital and the trade list), possibly open a new position,
then append one equity-curve sample. -/
def btStep (cfg : BTConfig) (initialCapital : ℚ) (st : BTState) (row : SignalRow) :
    Except String BTState :=
  match btStepEntry cfg row (processExits cfg row st.openTrades).1
      (st.capital + (((processExits cfg row st.openTrades).2).map (·.pnl)).sum) with
  | Except.error e => Except.error e
  | Except.ok opens =>
      Except.ok
        { capital := st.capital + (((processExits cfg row st.openTrades).2).map (·.pnl)).sum
          openTrades := opens
          trades := st.trades ++ (processExits cfg row st.openTrades).2
          equity := st.equity ++
            [{ timestamp := row.timestamp
               equity := st.capital + (((processExits cfg row st.openTrades).2).map (·.pnl)).sum +
                 unrealizedPnl cfg row.close opens
               realizedPnl := st.capital + (((processExits cfg row st.openTrades).2).map (·.pnl)).sum -
                 initialCapital
               unrealizedPnl := unrealizedPnl cfg row.close opens
               openPositions := opens.length }] }

/-- The bar-by-bar loop of run_backtest over the signal-decorated rows. -/
def btLoop (cfg : BTConfig) (initialCapital : ℚ) :
    BTState → List SignalRow → Except String BTState
  | st, [] => Except.ok st
  | st, row :: rest =>
      match btStep cfg initialCapital st row with
      | Except.error e => Except.error e
      | Except.ok st1 => btLoop cfg initialCapital st1 rest

/-- The results object assembled by _generate_results, restricted to the
fields the claims refer to; summary total_trades equals the trade-list
length in both the empty and the non-empty branch. -/
structure BTResult where
  finalCapital : ℚ
  totalTrades : ℕ
  trades : List ClosedTrade
  equityCurve : List EquityPoint
deriving DecidableEq, Repr

def generateResults (capital : ℚ) (trades : List ClosedTrade)
    (equity : List EquityPoint) : BTResult :=
  { finalCapital := capital
    totalTrades := trades.length
    trades := trades
    equityCurve := equity }

/-- ITMBacktester.run_backtest on a freshly constructed backtester:
generate signals once, return an empty result when no row carries a signal,
otherwise replay bar by bar and force-close surviving positions at the last
bar with reason 'end_of_data'. -/
def runBacktest (cfg : BTConfig) (scfg : SignalConfig) (initialCapital : ℚ)
    (data : List Bar) : Except String BTResult :=
  match generateSignals scfg data with
  | Except.error e => Except.error e
  | Except.ok rows =>
      if (rows.filter (fun r => r.signalType ≠ SigType.NONE)).length = 0 then
        Except.ok (generateResults initialCapital [] [])
      else
        match btLoop cfg initialCapital
            { capital := initialCapital, openTrades := [], trades := [], equity := [] } rows with
        | Except.error e => Except.error e
        | Except.ok final =>
            match rows.getLast? with
            | none => Except.ok (generateResults final.capital final.trades final.equity)
            | some lastRow =>
                let closedEnd := final.openTrades.map (fun t =>
                  closeTrade cfg t lastRow.timestamp
                    (optionPremium cfg.itmPremiumFactor lastRow.close t.strike t.optType)
                    "end_of_data")
                Except.ok (generateResults
                  (final.capital + (closedEnd.map (·.pnl)).sum)
                  (final.trades ++ closedEnd) final.equity)

/-! ## Concrete witness data -/

/-- A small-period strategy configuration (EMA periods 2/3, RSI period 2,
volume window 1 with multiplier 1) keeping the default time window and the
default min_confidence 0.6; used to build concrete runs. -/
def smallCfg : SignalConfig :=
  { emaFast := 2, emaSlow := 3, rsiPeriod := 2
    rsiBuyMin := 45, rsiBuyMax := 65, rsiSellMin := 35, rsiSellMax := 55
    volumeMultiplier := 1, volumePeriod := 1
    avoidFirstMinutes := 15, avoidLastMinutes := 15
    marketStart := 555, marketEnd := 930, minConfidence := 3/5 }

/-- A small-number backtest configuration (same exit thresholds as the
default one) used for concrete runs. -/
def smallBTConfig : BTConfig :=
  { positionSizePerTrade := 50, maxPositions := 3, commissionPerTrade := 1
    slippagePoints := 1/2, optionMultiplier := 1, itmPremiumFactor := 1
    forceExitMinutes := 5, stopLossPoints := 10, profitTarget1 := 8, profitTarget2 := 15 }

def mkBar (t o h l c v : ℚ) : Bar :=
  { timestamp := t, open_ := o, high := h, low := l, close := c, volume := v }

/-- Five-bar series on which, under `smallCfg`, bar 4 satisfies four bullish
conditions (VWAP, RSI, volume, green candle) and four bearish conditions
(EMA below, fresh down-cross, RSI, volume) simultaneously. -/
def dualData : List Bar :=
  [ mkBar 600 100 100 40 100 1
  , mkBar 601 100 154 154 154 1
  , mkBar 602 154 181 181 181 1
  , mkBar 603 181 130 130 130 1
  , mkBar 604 135 140 140 140 1 ]

/-- The signal rows generate_signals produces on `dualData` under `smallCfg`. -/
def dualRows : List SignalRow :=
  [ { timestamp := 600, close := 100, signalType := SigType.NONE, signalStrength := 0 }
  , { timestamp := 601, close := 154, signalType := SigType.BUY_CE, signalStrength := 5/6 }
  , { timestamp := 602, close := 181, signalType := SigType.BUY_CE, signalStrength := 2/3 }
  , { timestamp := 603, close := 130, signalType := SigType.NONE, signalStrength := 0 }
  , { timestamp := 604, close := 140, signalType := SigType.BUY_PE, signalStrength := 2/3 } ]

def trade1o : OpenTrade :=
  { entryTime := 601, signalType := SigType.BUY_CE, optType := OptType.CE, strike := 104
    spotPrice := 154, entryPremium := 409/2, quantity := 1, signalStrength := 5/6, commission := 2 }

def trade1c : ClosedTrade :=
  { base := trade1o, exitTime := 602, exitPremium := 515/2, pnl := 51
    pnlPoints := 53, holdTimeMinutes := 1, exitReason := "profit_target_2" }

def trade2o : OpenTrade :=
  { entryTime := 602, signalType := SigType.BUY_CE, optType := OptType.CE, strike := 131
    spotPrice := 181, entryPremium := 463/2, quantity := 1, signalStrength := 2/3, commission := 2 }

def trade2c : ClosedTrade :=
  { base := trade2o, exitTime := 603, exitPremium := 259/2, pnl := -104
    pnlPoints := -102, holdTimeMinutes := 1, exitReason := "stop_loss" }

def trade3o : OpenTrade :=
  { entryTime := 604, signalType := SigType.BUY_PE, optType := OptType.PE, strike := 190
    spotPrice := 140, entryPremium := 381/2, quantity := 1, signalStrength := 2/3, commission := 2 }

def trade3c : ClosedTrade :=
  { base := trade3o, exitTime := 604, exitPremium := 379/2, pnl := -3
    pnlPoints := -1, holdTimeMinutes := 0, exitReason := "end_of_data" }

def eqp0 : EquityPoint := { timestamp := 600, equity := 600, realizedPnl := 0, unrealizedPnl := 0, openPositions := 0 }
def eqp1 : EquityPoint := { timestamp := 601, equity := 1199/2, realizedPnl := 0, unrealizedPnl := -1/2, openPositions := 1 }
def eqp2 : EquityPoint := { timestamp := 602, equity := 1301/2, realizedPnl := 51, unrealizedPnl := -1/2, openPositions := 1 }
def eqp3 : EquityPoint := { timestamp := 603, equity := 547, realizedPnl := -53, unrealizedPnl := 0, openPositions := 0 }
def eqp4 : EquityPoint := { timestamp := 604, equity := 1093/2, realizedPnl := -53, unrealizedPnl := -1/2, openPositions := 1 }

/-- Result of the backtest on `dualData`: the first trade hits profit target
2, the second the stop loss, the third is force-closed at end of data;
600 + 51 - 104 - 3 = 544. -/
def dualResult : BTResult :=
  { finalCapital := 544, totalTrades := 3, trades := [trade1c, trade2c, trade3c]
    equityCurve := [eqp0, eqp1, eqp2, eqp3, eqp4] }

set_option maxRecDepth 3000 in
theorem dualRows_eval : generateSignals smallCfg dualData = Except.ok dualRows := by
  with_unfolding_all decide

set_option maxRecDepth 3000 in
theorem dualRun_eval : runBacktest smallBTConfig smallCfg 600 dualData = Except.ok dualResult := by
  with_unfolding_all decide

/-- Three flat bars inside the trading window: indicators well defined but no
sub-condition beyond the volume filter holds, so no signal is emitted. -/
def flatData3 : List Bar :=
  [ mkBar 600 100 100 100 100 1
  , mkBar 601 100 100 100 100 1
  , mkBar 602 100 100 100 100 1 ]

def flatRows : List SignalRow :=
  [ { timestamp := 600, close := 100, signalType := SigType.NONE, signalStrength := 0 }
  , { timestamp := 601, close := 100, signalType := SigType.NONE, signalStrength := 0 }
  , { timestamp := 602, close := 100, signalType := SigType.NONE, signalStrength := 0 } ]

set_option maxRecDepth 2000 in
theorem flatRows_eval : generateSignals smallCfg flatData3 = Except.ok flatRows := by
  with_unfolding_all decide

/-- Rising three-bar series whose timestamps lie before the 09:30 cut-off of
the default time filter (09:20-09:22). -/
def earlyData3 : List Bar :=
  [ mkBar 560 100 100 100 100 1
  , mkBar 561 100 110 110 110 1
  , mkBar 562 115 121 121 121 1 ]

def earlyRows : List SignalRow :=
  [ { timestamp := 560, close := 100, signalType := SigType.NONE, signalStrength := 0 }
  , { timestamp := 561, close := 110, signalType := SigType.NONE, signalStrength := 0 }
  , { timestamp := 562, close := 121, signalType := SigType.NONE, signalStrength := 0 } ]

set_option maxRecDepth 2000 in
theorem earlyRows_eval : generateSignals smallCfg earlyData3 = Except.ok earlyRows := by
  with_unfolding_all decide

/-- Configuration with one-sample EMA fast and RSI periods, used to exhibit a
bar that meets exactly four of six bullish conditions. -/
def strengthCfg : SignalConfig :=
  { emaFast := 1, emaSlow := 3, rsiPeriod := 1
    rsiBuyMin := 45, rsiBuyMax := 65, rsiSellMin := 35, rsiSellMax := 55
    volumeMultiplier := 1, volumePeriod := 1
    avoidFirstMinutes := 15, avoidLastMinutes := 15
    marketStart := 555, marketEnd := 930, minConfidence := 3/5 }

/-- Rising three-bar series inside the trading window: under `strengthCfg`
bar 2 meets the VWAP, EMA-momentum, volume and green-candle conditions
(4 of 6, strength 2/3). -/
def bullData3 : List Bar :=
  [ mkBar 600 100 100 100 100 1
  , mkBar 601 100 110 110 110 1
  , mkBar 602 115 121 121 121 1 ]

def bullRows : List SignalRow :=
  [ { timestamp := 600, close := 100, signalType := SigType.NONE, signalStrength := 0 }
  , { timestamp := 601, close := 110, signalType := SigType.BUY_CE, signalStrength := 5/6 }
  , { timestamp := 602, close := 121, signalType := SigType.BUY_CE, signalStrength := 2/3 } ]

set_option maxRecDepth 2000 in
theorem bullRows_eval : generateSignals strengthCfg bullData3 = Except.ok bullRows := by
  with_unfolding_all decide

/-- An out-of-range strategy configuration: min_confidence = 2 lies outside
[0, 1] (no bar can ever reach it). -/
def badSignalConfig : SignalConfig :=
  { emaFast := 2, emaSlow := 3, rsiPeriod := 2
    rsiBuyMin := 45, rsiBuyMax := 65, rsiSellMin := 35, rsiSellMax := 55
    volumeMultiplier := 1, volumePeriod := 1
    avoidFirstMinutes := 15, avoidLastMinutes := 15
    marketStart := 555, marketEnd := 930, minConfidence := 2 }

/-- A small-number risk configuration used for concrete risk checks. -/
def smallRiskConfig : RiskConfig :=
  { maxRiskPerTrade := 1/50
    maxPositionSize := 500
    minPositionSize := 50
    maxDailyLoss := 1/20
    maxConcurrentPositions := 3
    maxTradesPerDay := 50
    stepDownAfterLoss := true }

/-- An out-of-range risk configuration: a negative per-trade risk fraction. -/
def badRiskConfig : RiskConfig :=
  { maxRiskPerTrade := -1/50
    maxPositionSize := 500
    minPositionSize := 50
    maxDailyLoss := 1/20
    maxConcurrentPositions := 3
    maxTradesPerDay := 50
    stepDownAfterLoss := true }

/-- Fresh start-of-day counters. -/
def freshStats : DailyStats :=
  { tradesToday := 0, pnlToday := 0, maxDrawdownToday := 0, startCapital := 600 }

/-! ## Structural lemmas about the signal engine -/

theorem buildRows_length (cfg : SignalConfig) (data : List Bar) :
    (buildRows cfg data).length = data.length := by
  simp [buildRows]

theorem generateSignals_ok_rows {cfg : SignalConfig} {data : List Bar} {rows : List SignalRow}
    (h : generateSignals cfg data = Except.ok rows) : rows = buildRows cfg data := by
  unfold generateSignals at h
  split at h
  · exact Except.noConfusion h
  · injection h with h
    exact h.symm

theorem generateSignals_rows_length {cfg : SignalConfig} {data : List Bar} {rows : List SignalRow}
    (h : generateSignals cfg data = Except.ok rows) : rows.length = data.length := by
  rw [generateSignals_ok_rows h, buildRows_length]

theorem buildRows_getElem (cfg : SignalConfig) (data : List Bar) (i : ℕ)
    (hi : i < (buildRows cfg data).length) :
    (buildRows cfg data)[i] =
      { timestamp := timestampAt data i
        close := closeAt data i
        signalType := signalTypeAt cfg data i
        signalStrength := signalStrengthAt cfg data i } := by
  simp [buildRows]

theorem rawBullStrength_of_filtered {cfg : SignalConfig} {data : List Bar} {i : ℕ}
    (h : checkTimeFilter cfg (timestampAt data i) = false) :
    rawBullStrength cfg data i = 0 := by
  simp [rawBullStrength, h]

theorem rawBearStrength_of_filtered {cfg : SignalConfig} {data : List Bar} {i : ℕ}
    (h : checkTimeFilter cfg (timestampAt data i) = false) :
    rawBearStrength cfg data i = 0 := by
  simp [rawBearStrength, h]

theorem bullSignalAt_of_raw_zero {cfg : SignalConfig} {data : List Bar} {i : ℕ}
    (h : rawBullStrength cfg data i = 0) : bullSignalAt cfg data i = 0 := by
  simp [bullSignalAt, h]

theorem bearSignalAt_of_raw_zero {cfg : SignalConfig} {data : List Bar} {i : ℕ}
    (h : rawBearStrength cfg data i = 0) : bearSignalAt cfg data i = 0 := by
  simp [bearSignalAt, h]

/-- C7 — Time-filter safety: a bar on which check_time_filter returns false
(in particular one inside the excluded first/last minutes of the session)
receives signal_type NONE and signal_strength 0 from generate_signals, no
matter how many sub-conditions hold there. -/
theorem c7_time_filter_no_signal :
    ∀ (cfg : SignalConfig) (data : List Bar) (rows : List SignalRow) (i : ℕ)
      (h : generateSignals cfg data = Except.ok rows) (hi : i < rows.length),
      checkTimeFilter cfg (timestampAt data i) = false →
      rows[i].signalType = SigType.NONE ∧ rows[i].signalStrength = 0 := by
  intro cfg data rows i h hi hfilter
  have hr := generateSignals_ok_rows h
  subst hr
  rw [buildRows_getElem cfg data i hi]
  have hbull := bullSignalAt_of_raw_zero (rawBullStrength_of_filtered hfilter)
  have hbear := bearSignalAt_of_raw_zero (rawBearStrength_of_filtered hfilter)
  constructor
  · simp [signalTypeAt, hbull, hbear]
  · simp [signalStrengthAt, hbull, hbear]

/-- C6 — Tie-break: when both directions qualify on the same bar (both signal
series carry a positive strength there), the bearish assignment, applied
after the bullish one, wins: the row gets BUY_PE with the bearish strength. -/
theorem c6_bearish_overwrites_bullish :
    ∀ (cfg : SignalConfig) (data : List Bar) (rows : List SignalRow) (i : ℕ)
      (h : generateSignals cfg data = Except.ok rows) (hi : i < rows.length),
      bullSignalAt cfg data i > 0 →
      bearSignalAt cfg data i > 0 →
      rows[i].signalType = SigType.BUY_PE ∧
      rows[i].signalStrength = bearSignalAt cfg data i := by
  intro cfg data rows i h hi hbull hbear
  have hr := generateSignals_ok_rows h
  subst hr
  rw [buildRows_getElem cfg data i hi]
  constructor
  · show signalTypeAt cfg data i = SigType.BUY_PE
    unfold signalTypeAt
    rw [if_pos hbear]
  · show signalStrengthAt cfg data i = bearSignalAt cfg data i
    unfold signalStrengthAt
    rw [if_pos hbear]

/-- C8 — The signal engine fails (the insufficient-data ValueError of
calculate_indicators, raised before any indicator computation) exactly when
the series is shorter than max(ema_slow, rsi_period, volume_period), which is
21 under the default configuration.  The period hypotheses delimit the domain
on which the rational embedding matches pandas (ewm and rolling both reject
non-positive periods at call time). -/
theorem c8_insufficient_data_error :
    ∀ (cfg : SignalConfig) (data : List Bar),
      1 ≤ cfg.emaFast → 1 ≤ cfg.emaSlow → 1 ≤ cfg.rsiPeriod → 1 ≤ cfg.volumePeriod →
      ((generateSignals cfg data).isOk = true ↔ requiredLookback cfg ≤ data.length) ∧
      requiredLookback defaultSignalConfig = 21 := by
  intro cfg data _ _ _ _
  constructor
  · unfold generateSignals
    split
    · next hlt =>
      simp [Except.isOk, Except.toBool, Nat.not_le.mpr hlt]
    · next hge =>
      simp [Except.isOk, Except.toBool, Nat.not_lt.mp hge]
  · rfl

theorem toNat_le_one (b : Bool) : b.toNat ≤ 1 := by
  cases b <;> simp

theorem bullishCount_le_six (cfg : SignalConfig) (data : List Bar) (i : ℕ) :
    bullishCount cfg data i ≤ 6 := by
  unfold bullishCount
  have h1 := toNat_le_one (bullCond1 data i)
  have h2 := toNat_le_one (bullCond2 cfg data i)
  have h3 := toNat_le_one (bullCond3 cfg data i)
  have h4 := toNat_le_one (bullCond4 cfg data i)
  have h5 := toNat_le_one (bullCond5 cfg data i)
  have h6 := toNat_le_one (bullCond6 data i)
  omega

theorem bearishCount_le_six (cfg : SignalConfig) (data : List Bar) (i : ℕ) :
    bearishCount cfg data i ≤ 6 := by
  unfold bearishCount
  have h1 := toNat_le_one (bearCond1 data i)
  have h2 := toNat_le_one (bearCond2 cfg data i)
  have h3 := toNat_le_one (bearCond3 cfg data i)
  have h4 := toNat_le_one (bearCond4 cfg data i)
  have h5 := toNat_le_one (bearCond5 cfg data i)
  have h6 := toNat_le_one (bearCond6 data i)
  omega

theorem rawBullStrength_cases (cfg : SignalConfig) (data : List Bar) (i : ℕ) :
    rawBullStrength cfg data i = 0 ∨
    rawBullStrength cfg data i = (bullishCount cfg data i : ℚ) / 6 := by
  unfold rawBullStrength
  split
  · exact Or.inl rfl
  · split
    · exact Or.inr rfl
    · exact Or.inl rfl

theorem rawBearStrength_cases (cfg : SignalConfig) (data : List Bar) (i : ℕ) :
    rawBearStrength cfg data i = 0 ∨
    rawBearStrength cfg data i = (bearishCount cfg data i : ℚ) / 6 := by
  unfold rawBearStrength
  split
  · exact Or.inl rfl
  · split
    · exact Or.inr rfl
    · exact Or.inl rfl

/-- Arithmetic core of the quantization: a count of at most 6 whose sixth
reaches 0.6 gives one of the three strengths 2/3, 5/6, 1. -/
theorem count_div_six_mem (n : ℕ) (hle : n ≤ 6) (hth : (3 : ℚ)/5 ≤ (n : ℚ)/6) :
    ((n : ℚ)/6 = 2/3 ∨ (n : ℚ)/6 = 5/6 ∨ (n : ℚ)/6 = 1) ∧
    (2 : ℚ)/3 ≤ (n : ℚ)/6 ∧ (n : ℚ)/6 ≠ 3/5 := by
  interval_cases n <;> norm_num at hth ⊢

/-- Quantization of a thresholded strength value: if the stored signal value
is positive it equals the raw count/6 and lies in the three-value set. -/
theorem thresholded_strength_mem (conf raw s : ℚ) (count : ℕ)
    (hconf : conf = 3/5)
    (hcount : count ≤ 6)
    (hraw : raw = 0 ∨ raw = (count : ℚ)/6)
    (hs : s = if raw ≥ conf then raw else 0)
    (hpos : s > 0) :
    (s = 2/3 ∨ s = 5/6 ∨ s = 1) ∧ (2 : ℚ)/3 ≤ s ∧ s ≠ 3/5 := by
  subst hconf
  rcases hraw with hraw | hraw
  · rw [hs, hraw] at hpos
    split at hpos <;> norm_num at hpos
  · by_cases hth : raw ≥ (3 : ℚ)/5
    · rw [hs, if_pos hth, hraw]
      rw [hraw] at hth
      exact count_div_six_mem count hcount hth
    · rw [hs, if_neg hth] at hpos
      norm_num at hpos

/-- C10 — Strength quantization: under min_confidence = 0.6 every bar whose
signal_type is not NONE carries a strength in the set of the three values
2/3, 5/6, 1; in particular the strength is at least 2/3 and is never
exactly 0.6. -/
theorem c10_strength_quantization :
    ∀ (cfg : SignalConfig) (data : List Bar) (rows : List SignalRow) (i : ℕ)
      (h : generateSignals cfg data = Except.ok rows) (hi : i < rows.length),
      cfg.minConfidence = 3/5 →
      rows[i].signalType ≠ SigType.NONE →
      (rows[i].signalStrength = 2/3 ∨ rows[i].signalStrength = 5/6 ∨
       rows[i].signalStrength = 1) ∧
      (2 : ℚ)/3 ≤ rows[i].signalStrength ∧ rows[i].signalStrength ≠ 3/5 := by
  intro cfg data rows i h hi hconf hne
  have hr := generateSignals_ok_rows h
  subst hr
  rw [buildRows_getElem cfg data i hi] at hne ⊢
  show (signalStrengthAt cfg data i = 2/3 ∨ signalStrengthAt cfg data i = 5/6 ∨
        signalStrengthAt cfg data i = 1) ∧
       (2 : ℚ)/3 ≤ signalStrengthAt cfg data i ∧ signalStrengthAt cfg data i ≠ 3/5
  have hne' : signalTypeAt cfg data i ≠ SigType.NONE := hne
  unfold signalTypeAt at hne'
  unfold signalStrengthAt
  by_cases hbear : bearSignalAt cfg data i > 0
  · rw [if_pos hbear]
    exact thresholded_strength_mem cfg.minConfidence (rawBearStrength cfg data i) _
      (bearishCount cfg data i) hconf (bearishCount_le_six cfg data i)
      (rawBearStrength_cases cfg data i) rfl hbear
  · rw [if_neg hbear] at hne' ⊢
    by_cases hbull : bullSignalAt cfg data i > 0
    · rw [if_pos hbull]
      exact thresholded_strength_mem cfg.minConfidence (rawBullStrength cfg data i) _
        (bullishCount cfg data i) hconf (bullishCount_le_six cfg data i)
        (rawBullStrength_cases cfg data i) rfl hbull
    · rw [if_neg hbull] at hne'
      exact absurd rfl hne'

/-! ## Exit-priority of check_exit_conditions -/

/-- The pnl_points quantity computed inside check_exit_conditions:
the current synthetic premium minus the entry premium. -/
def exitPnlPoints (cfg : BTConfig) (trade : OpenTrade) (row : SignalRow) : ℚ :=
  optionPremium cfg.itmPremiumFactor row.close trade.strike trade.optType - trade.entryPremium

/-- C5 — check_exit_conditions evaluates its rules in the fixed order time
limit, stop loss, profit target 2, profit target 1, reverse signal with
strength > 0.7, returning the first matching rule's reason; in particular a
bar on which both the time-limit and the stop-loss condition hold reports
'time_limit'. -/
theorem c5_exit_priority_order :
    ∀ (cfg : BTConfig) (trade : OpenTrade) (row : SignalRow) (m : ℚ),
      (m ≥ cfg.forceExitMinutes →
        checkExitConditions cfg trade row m =
          (true, some "time_limit",
            optionPremium cfg.itmPremiumFactor row.close trade.strike trade.optType)) ∧
      (m ≥ cfg.forceExitMinutes ∧ exitPnlPoints cfg trade row ≤ -cfg.stopLossPoints →
        (checkExitConditions cfg trade row m).2.1 = some "time_limit") ∧
      (¬(m ≥ cfg.forceExitMinutes) → exitPnlPoints cfg trade row ≤ -cfg.stopLossPoints →
        checkExitConditions cfg trade row m =
          (true, some "stop_loss",
            optionPremium cfg.itmPremiumFactor row.close trade.strike trade.optType)) ∧
      (¬(m ≥ cfg.forceExitMinutes) → ¬(exitPnlPoints cfg trade row ≤ -cfg.stopLossPoints) →
        exitPnlPoints cfg trade row ≥ cfg.profitTarget2 →
        checkExitConditions cfg trade row m =
          (true, some "profit_target_2",
            optionPremium cfg.itmPremiumFactor row.close trade.strike trade.optType)) ∧
      (¬(m ≥ cfg.forceExitMinutes) → ¬(exitPnlPoints cfg trade row ≤ -cfg.stopLossPoints) →
        ¬(exitPnlPoints cfg trade row ≥ cfg.profitTarget2) →
        exitPnlPoints cfg trade row ≥ cfg.profitTarget1 →
        checkExitConditions cfg trade row m =
          (true, some "profit_target_1",
            optionPremium cfg.itmPremiumFactor row.close trade.strike trade.optType)) ∧
      (¬(m ≥ cfg.forceExitMinutes) → ¬(exitPnlPoints cfg trade row ≤ -cfg.stopLossPoints) →
        ¬(exitPnlPoints cfg trade row ≥ cfg.profitTarget2) →
        ¬(exitPnlPoints cfg trade row ≥ cfg.profitTarget1) →
        (row.signalType = oppositeSignal trade.signalType ∧ row.signalStrength > 7/10) →
        checkExitConditions cfg trade row m =
          (true, some "reverse_signal",
            optionPremium cfg.itmPremiumFactor row.close trade.strike trade.optType)) ∧
      (¬(m ≥ cfg.forceExitMinutes) → ¬(exitPnlPoints cfg trade row ≤ -cfg.stopLossPoints) →
        ¬(exitPnlPoints cfg trade row ≥ cfg.profitTarget2) →
        ¬(exitPnlPoints cfg trade row ≥ cfg.profitTarget1) →
        ¬(row.signalType = oppositeSignal trade.signalType ∧ row.signalStrength > 7/10) →
        checkExitConditions cfg trade row m =
          (false, none,
            optionPremium cfg.itmPremiumFactor row.close trade.strike trade.optType)) := by
  intro cfg trade row m
  have htime : m ≥ cfg.forceExitMinutes →
      checkExitConditions cfg trade row m =
        (true, some "time_limit",
          optionPremium cfg.itmPremiumFactor row.close trade.strike trade.optType) := by
    intro h1
    unfold checkExitConditions
    rw [if_pos h1]
  refine ⟨htime, ?_, ?_, ?_, ?_, ?_, ?_⟩
  · intro h
    rw [htime h.1]
  · intro h1 h2
    unfold exitPnlPoints at h2
    unfold checkExitConditions
    rw [if_neg h1, if_pos h2]
  · intro h1 h2 h3
    unfold exitPnlPoints at h2 h3
    unfold checkExitConditions
    rw [if_neg h1, if_neg h2, if_pos h3]
  · intro h1 h2 h3 h4
    unfold exitPnlPoints at h2 h3 h4
    unfold checkExitConditions
    rw [if_neg h1, if_neg h2, if_neg h3, if_pos h4]
  · intro h1 h2 h3 h4 h5
    unfold exitPnlPoints at h2 h3 h4
    unfold checkExitConditions
    rw [if_neg h1, if_neg h2, if_neg h3, if_neg h4, if_pos h5]
  · intro h1 h2 h3 h4 h5
    unfold exitPnlPoints at h2 h3 h4
    unfold checkExitConditions
    rw [if_neg h1, if_neg h2, if_neg h3, if_neg h4, if_neg h5]

/-- Open CE position held past the force-exit time while deep under the stop
loss: entry premium 100, spot having fallen to 50 (current premium 1). -/
def tieTrade : OpenTrade :=
  { entryTime := 600, signalType := SigType.BUY_CE, optType := OptType.CE, strike := 100
    spotPrice := 154, entryPremium := 100, quantity := 1, signalStrength := 1/2, commission := 40 }

def tieRow : SignalRow :=
  { timestamp := 606, close := 50, signalType := SigType.NONE, signalStrength := 0 }

/-- Witness for C5: at 6 minutes held (≥ 5) with pnl points -99 (≤ -10),
both the time-limit and the stop-loss condition hold, and the reported
exit reason is 'time_limit'. -/
theorem c5_witness :
    (6 : ℚ) ≥ defaultBTConfig.forceExitMinutes ∧
    exitPnlPoints defaultBTConfig tieTrade tieRow ≤ -defaultBTConfig.stopLossPoints ∧
    (checkExitConditions defaultBTConfig tieTrade tieRow 6).2.1 = some "time_limit" :=
  ⟨by with_unfolding_all decide, by with_unfolding_all decide,
   (c5_exit_priority_order defaultBTConfig tieTrade tieRow 6).2.1
     ⟨by with_unfolding_all decide, by with_unfolding_all decide⟩⟩

/-! ## Invariants of the backtest loop -/

theorem btStep_fields {cfg : BTConfig} {init : ℚ} {st : BTState} {row : SignalRow}
    {st' : BTState} (h : btStep cfg init st row = Except.ok st') :
    st'.capital = st.capital + (((processExits cfg row st.openTrades).2).map (·.pnl)).sum ∧
    st'.trades = st.trades ++ (processExits cfg row st.openTrades).2 ∧
    st'.equity.length = st.equity.length + 1 := by
  unfold btStep at h
  split at h
  · exact Except.noConfusion h
  · injection h with h
    subst h
    refine ⟨rfl, rfl, ?_⟩
    simp

theorem btStep_conserves {cfg : BTConfig} {init : ℚ} {st : BTState} {row : SignalRow}
    {st' : BTState} (h : btStep cfg init st row = Except.ok st')
    (hinv : st.capital = init + (st.trades.map (·.pnl)).sum) :
    st'.capital = init + (st'.trades.map (·.pnl)).sum := by
  obtain ⟨hc, ht, -⟩ := btStep_fields h
  rw [hc, ht, hinv, List.map_append, List.sum_append]
  ring

theorem btLoop_conserves {cfg : BTConfig} {init : ℚ} :
    ∀ (rows : List SignalRow) (st st' : BTState),
      btLoop cfg init st rows = Except.ok st' →
      st.capital = init + (st.trades.map (·.pnl)).sum →
      st'.capital = init + (st'.trades.map (·.pnl)).sum := by
  intro rows
  induction rows with
  | nil =>
      intro st st' h hinv
      unfold btLoop at h
      injection h with h
      subst h
      exact hinv
  | cons r rs ih =>
      intro st st' h hinv
      unfold btLoop at h
      split at h
      · exact Except.noConfusion h
      · next st1 hstep =>
          exact ih st1 st' h (btStep_conserves hstep hinv)

theorem btLoop_equity_length {cfg : BTConfig} {init : ℚ} :
    ∀ (rows : List SignalRow) (st st' : BTState),
      btLoop cfg init st rows = Except.ok st' →
      st'.equity.length = st.equity.length + rows.length := by
  intro rows
  induction rows with
  | nil =>
      intro st st' h
      unfold btLoop at h
      injection h with h
      subst h
      simp
  | cons r rs ih =>
      intro st st' h
      unfold btLoop at h
      split at h
      · exact Except.noConfusion h
      · next st1 hstep =>
          have h1 := (btStep_fields hstep).2.2
          have h2 := ih st1 st' h
          rw [h2, h1]
          simp
          omega

/-- C1 — Capital conservation of the backtest: for every run of run_backtest
that completes, the final capital equals the initial capital plus the sum of
pnl over the closed-trade list, exactly (in the exact rational model); the
equality is maintained through every close, including the end-of-data
force-closes. -/
theorem c1_capital_conservation :
    ∀ (cfg : BTConfig) (scfg : SignalConfig) (initialCapital : ℚ) (data : List Bar)
      (res : BTResult),
      runBacktest cfg scfg initialCapital data = Except.ok res →
      res.finalCapital = initialCapital + (res.trades.map (·.pnl)).sum := by
  intro cfg scfg init data res h
  unfold runBacktest at h
  split at h
  · exact Except.noConfusion h
  · split at h
    · injection h with h
      subst h
      simp [generateResults]
    · split at h
      · exact Except.noConfusion h
      · next final hloop =>
          have hfin : final.capital = init + (final.trades.map (·.pnl)).sum :=
            btLoop_conserves _ _ final hloop (by simp)
          split at h
          · injection h with h
            subst h
            simpa [generateResults] using hfin
          · injection h with h
            subst h
            simp only [generateResults, List.map_append, List.sum_append]
            rw [hfin]
            ring

/-- Witness for C1 at a completed five-bar run with three closed trades:
600 + 51 - 104 - 3 = 544. -/
theorem c1_witness :
    runBacktest smallBTConfig smallCfg 600 dualData = Except.ok dualResult ∧
    dualResult.finalCapital = 600 + (dualResult.trades.map (·.pnl)).sum :=
  ⟨dualRun_eval, c1_capital_conservation smallBTConfig smallCfg 600 dualData dualResult dualRun_eval⟩

/-- Counterexample to C2 as stated: on an empty (hence too-short) input
series, run_backtest does not return a zero-trade result — the signal
engine's insufficient-data error propagates out of it unguarded. -/
theorem c2_counterexample_short_input :
    (runBacktest defaultBTConfig defaultSignalConfig 100000 ([] : List Bar)).isOk = false ∧
    ([] : List Bar).length < requiredLookback defaultSignalConfig := by
  exact ⟨rfl, by decide⟩

/-- C2 as amended — the zero-trade path exists only for series long enough
for the signal engine: when generate_signals succeeds and no row carries a
signal, run_backtest returns the zero-trade result object (total_trades = 0,
empty trade list and equity curve, capital unchanged); a series shorter than
the required lookback instead propagates the signal engine's error. -/
theorem c2_amended_zero_signal :
    ∀ (cfg : BTConfig) (scfg : SignalConfig) (initialCapital : ℚ) (data : List Bar)
      (rows : List SignalRow),
      generateSignals scfg data = Except.ok rows →
      (rows.filter (fun r => r.signalType ≠ SigType.NONE)).length = 0 →
      runBacktest cfg scfg initialCapital data =
        Except.ok { finalCapital := initialCapital, totalTrades := 0, trades := [],
                    equityCurve := [] } := by
  intro cfg scfg init data rows hsig hcount
  simp only [runBacktest, hsig]
  rw [if_pos hcount]
  rfl

/-- Witness for the amended C2: a three-bar flat series (length ≥ lookback 3
of `smallCfg`) with zero qualifying signals completes with the zero-trade
result. -/
theorem c2_witness_zero_signals :
    generateSignals smallCfg flatData3 = Except.ok flatRows ∧
    runBacktest smallBTConfig smallCfg 600 flatData3 =
      Except.ok { finalCapital := 600, totalTrades := 0, trades := [], equityCurve := [] } :=
  ⟨flatRows_eval,
   c2_amended_zero_signal smallBTConfig smallCfg 600 flatData3 flatRows flatRows_eval (by decide)⟩

/-- Counterexample to C4 as stated: an accepted three-bar series with zero
qualifying signals yields an empty equity curve (length 0 ≠ 3), because
run_backtest returns early before the per-bar loop. -/
theorem c4_counterexample_zero_signal_curve :
    (runBacktest smallBTConfig smallCfg 600 flatData3).toOption.map (fun r => r.equityCurve.length) =
      some 0 ∧
    flatData3.length = 3 := by
  with_unfolding_all decide

/-- C4 as amended — when the series produces at least one qualifying signal,
run_backtest records exactly one equity-curve sample per bar (curve length =
series length); when it produces none, the early return leaves the equity
curve empty. -/
theorem c4_amended_equity_curve :
    ∀ (cfg : BTConfig) (scfg : SignalConfig) (initialCapital : ℚ) (data : List Bar)
      (rows : List SignalRow) (res : BTResult),
      generateSignals scfg data = Except.ok rows →
      runBacktest cfg scfg initialCapital data = Except.ok res →
      ((rows.filter (fun r => r.signalType ≠ SigType.NONE)).length ≠ 0 →
        res.equityCurve.length = data.length) ∧
      ((rows.filter (fun r => r.signalType ≠ SigType.NONE)).length = 0 →
        res.equityCurve = []) := by
  intro cfg scfg init data rows res hsig h
  unfold runBacktest at h
  rw [hsig] at h
  simp only [] at h
  split at h
  · next hcount =>
      injection h with h
      subst h
      exact ⟨fun hne => absurd hcount hne, fun _ => by simp [generateResults]⟩
  · next hcount =>
      split at h
      · exact Except.noConfusion h
      · next final hloop =>
          have hlen : final.equity.length = 0 + rows.length :=
            btLoop_equity_length _ _ final hloop
          have hrl : rows.length = data.length := generateSignals_rows_length hsig
          split at h
          · injection h with h
            subst h
            refine ⟨fun _ => ?_, fun hz => absurd hz hcount⟩
            simp only [generateResults]
            omega
          · injection h with h
            subst h
            refine ⟨fun _ => ?_, fun hz => absurd hz hcount⟩
            simp only [generateResults]
            omega

/-- Witness for the amended C4 at the five-bar run with three signals:
the equity curve has exactly five samples. -/
theorem c4_witness :
    generateSignals smallCfg dualData = Except.ok dualRows ∧
    runBacktest smallBTConfig smallCfg 600 dualData = Except.ok dualResult ∧
    (dualRows.filter (fun r => r.signalType ≠ SigType.NONE)).length ≠ 0 ∧
    dualResult.equityCurve.length = dualData.length :=
  ⟨dualRows_eval, dualRun_eval, by decide,
   (c4_amended_equity_curve smallBTConfig smallCfg 600 dualData dualRows dualResult
     dualRows_eval dualRun_eval).1 (by decide)⟩

/-! ## Risk sizer claims -/

/-- Counterexample to C3 as stated: capital 60 with fresh day counters passes
the first four checks and yields the fractional size 60 × 2% = 1.2, well
below min_position_size = 50 — yet check_pre_trade_risk accepts the trade
with position_size = 50 instead of rejecting with size 0, because
calculate_position_size clamps the size up to the minimum before the
"too small" comparison runs. -/
theorem c3_counterexample_small_size_accepted :
    fractionalSize smallRiskConfig freshStats (some (3/4)) 60 < smallRiskConfig.minPositionSize ∧
    checkPreTradeRisk smallRiskConfig freshStats 0 (some (3/4)) 60 =
      (true, "Risk check passed", 50) := by
  with_unfolding_all decide

/-- C3 as amended — when the first four rejection checks pass and the
computed fractional size falls below min_position_size (with
min_position_size ≤ max_position_size), check_pre_trade_risk accepts the
trade with position_size = min_position_size; the "position too small"
rejection branch is unreachable, since calculate_position_size already
returns max(fractional size, min_position_size). -/
theorem c3_amended_min_clamp :
    ∀ (cfg : RiskConfig) (stats : DailyStats) (numPositions : ℕ)
      (signalStrength : Option ℚ) (capital : ℚ),
      ¬(capital ≤ cfg.minPositionSize) →
      ¬(stats.pnlToday < 0 ∧ dailyLossPct stats ≥ cfg.maxDailyLoss) →
      numPositions < cfg.maxConcurrentPositions →
      stats.tradesToday < cfg.maxTradesPerDay →
      fractionalSize cfg stats signalStrength capital < cfg.minPositionSize →
      cfg.minPositionSize ≤ cfg.maxPositionSize →
      checkPreTradeRisk cfg stats numPositions signalStrength capital =
        (true, "Risk check passed", cfg.minPositionSize) := by
  intro cfg stats numPositions signalStrength capital h1 h2 h3 h4 h5 h6
  have hs : calculatePositionSize cfg stats signalStrength capital = cfg.minPositionSize := by
    unfold calculatePositionSize
    exact max_eq_right (le_of_lt h5)
  unfold checkPreTradeRisk
  rw [if_neg h1, if_neg h2, if_neg (Nat.not_le.mpr h3), if_neg (Nat.not_le.mpr h4), hs,
    if_neg (not_lt.mpr h6), if_neg (lt_irrefl cfg.minPositionSize)]

/-- Witness for the amended C3 at the concrete rejected-by-the-claim input. -/
theorem c3_amended_witness :
    fractionalSize smallRiskConfig freshStats (some (3/4)) 60 < smallRiskConfig.minPositionSize ∧
    checkPreTradeRisk smallRiskConfig freshStats 0 (some (3/4)) 60 =
      (true, "Risk check passed", smallRiskConfig.minPositionSize) :=
  ⟨by with_unfolding_all decide,
   c3_amended_min_clamp smallRiskConfig freshStats 0 (some (3/4)) 60
     (by with_unfolding_all decide) (by with_unfolding_all decide) (by decide) (by decide)
     (by with_unfolding_all decide) (by with_unfolding_all decide)⟩

/-! ## Constructor validation claims -/

/-- Counterexample to C9 as stated: an out-of-range min_confidence (2 ∉
[0,1]) and a negative risk fraction are accepted silently at construction —
no error is raised, the bad values are stored verbatim, and the engine later
runs without complaint, merely emitting no signals (every strength is at
most 1 < 2). -/
theorem c9_counterexample_bad_config_accepted :
    ITMScalpingSignals.init (some badSignalConfig) = badSignalConfig ∧
    badSignalConfig.minConfidence > 1 ∧
    (RiskManager.init (some badRiskConfig)).config = badRiskConfig ∧
    badRiskConfig.maxRiskPerTrade < 0 ∧
    (generateSignals badSignalConfig dualData).isOk = true ∧
    (generateSignals badSignalConfig dualData).toOption.map (fun rs => rs.map (·.signalType)) =
      some [SigType.NONE, SigType.NONE, SigType.NONE, SigType.NONE, SigType.NONE] := by
  refine ⟨rfl, by with_unfolding_all decide, rfl, by with_unfolding_all decide, ?_, ?_⟩
  · with_unfolding_all decide
  · with_unfolding_all decide

/-- C9 as amended — the constructors of the Signal Engine and the Risk
Manager perform no validation at all: for every configuration override,
including out-of-range values, construction succeeds and stores the override
verbatim (there is no ConfigurationError anywhere in the code). -/
theorem c9_amended_no_validation :
    ∀ (sc : SignalConfig) (rc : RiskConfig),
      ITMScalpingSignals.init (some sc) = sc ∧
      (RiskManager.init (some rc)).config = rc ∧
      (RiskManager.init (some rc)).stats =
        { tradesToday := 0, pnlToday := 0, maxDrawdownToday := 0, startCapital := 0 } ∧
      (RiskManager.init (some rc)).numPositions = 0 :=
  fun _ _ => ⟨rfl, rfl, rfl, rfl⟩

/-! ## Witnesses for the signal-engine claims -/

/-- Witness for C6: on bar 4 of `dualData` both directions qualify (both
strengths are 2/3 > 0) and the emitted signal is BUY_PE with the bearish
strength. -/
theorem c6_witness :
    bullSignalAt smallCfg dualData 4 > 0 ∧
    bearSignalAt smallCfg dualData 4 > 0 ∧
    dualRows[4].signalType = SigType.BUY_PE ∧
    dualRows[4].signalStrength = bearSignalAt smallCfg dualData 4 := by
  have hb : bullSignalAt smallCfg dualData 4 > 0 := by with_unfolding_all decide
  have he : bearSignalAt smallCfg dualData 4 > 0 := by with_unfolding_all decide
  have h := c6_bearish_overwrites_bullish smallCfg dualData dualRows 4 dualRows_eval
    (by decide) hb he
  exact ⟨hb, he, h.1, h.2⟩

/-- Witness for C7: bar 2 of `earlyData3` (timestamped 09:22, before the
09:30 cut-off) fails the time filter and receives NONE with strength 0. -/
theorem c7_witness :
    checkTimeFilter smallCfg (timestampAt earlyData3 2) = false ∧
    earlyRows[2].signalType = SigType.NONE ∧
    earlyRows[2].signalStrength = 0 := by
  have hf : checkTimeFilter smallCfg (timestampAt earlyData3 2) = false := by
    with_unfolding_all decide
  have h := c7_time_filter_no_signal smallCfg earlyData3 earlyRows 2 earlyRows_eval
    (by decide) hf
  exact ⟨hf, h.1, h.2⟩

/-- Witness for C8 at an empty series: generation fails, matching the
length criterion. -/
theorem c8_witness :
    1 ≤ smallCfg.emaFast ∧ 1 ≤ smallCfg.emaSlow ∧ 1 ≤ smallCfg.rsiPeriod ∧
    1 ≤ smallCfg.volumePeriod ∧
    (((generateSignals smallCfg ([] : List Bar)).isOk = true) ↔
      requiredLookback smallCfg ≤ ([] : List Bar).length) :=
  ⟨by decide, by decide, by decide, by decide,
   (c8_insufficient_data_error smallCfg [] (by decide) (by decide) (by decide) (by decide)).1⟩

/-- Witness for C10: bar 2 of `bullData3` carries a BUY_CE signal, and its
strength is one of the three quantized values (2/3 here). -/
theorem c10_witness :
    strengthCfg.minConfidence = 3/5 ∧
    bullRows[2].signalType ≠ SigType.NONE ∧
    ((bullRows[2].signalStrength = 2/3 ∨ bullRows[2].signalStrength = 5/6 ∨
      bullRows[2].signalStrength = 1) ∧
     (2 : ℚ)/3 ≤ bullRows[2].signalStrength ∧ bullRows[2].signalStrength ≠ 3/5) := by
  have hconf : strengthCfg.minConfidence = 3/5 := rfl
  have hne : bullRows[2].signalType ≠ SigType.NONE := by decide
  exact ⟨hconf, hne,
    c10_strength_quantization strengthCfg bullData3 bullRows 2 bullRows_eval (by decide)
      hconf hne⟩
